import Mathlib

/-!
Shallow embedding of `src/update_and_send.py` (the retrieval-transform-upload
pipeline with its retry policy), together with theorems checking the
specification's claims against it.

External collaborators (the baostock provider session and the `requests` HTTP
client) are modelled as oracles packaged in an `AttemptEnv`: each attempt of the
outer retry loop consults the environment for the outcome of every external
call.  The orchestration functions mirror the Python control flow statement by
statement and additionally record a trace of observable events (provider calls,
HTTP posts, `print` output, `time.sleep`), so that temporal claims ("no upload
after k", "restarts from login") become statements about the trace.

Modelling conventions, each matching a construct of the source:
  * baostock result cursors expose `error_code`, a row iterator and `fields`;
    they are modelled as a `Cursor` holding the constant error code, the field
    names and the row list.  The idiom
    `while (rs.error_code == "0") & rs.next(): data.append(rs.get_row_data())`
    collects every row when the code is `"0"` and no row otherwise
    (`collectRows`).
  * `bs.login()` returns a result object whose `error_code` the script checks
    (`login_baostock` raises on a non-zero code); `bs.logout()` likewise
    returns a result object, which the script discards, so its error code is
    recorded in the trace but never inspected.
  * `requests.post` either raises a transport-level `RequestException`
    (modelled `Except.error msg`) or returns a response with a status code and
    a body; `response.raise_for_status()` raises `HTTPError` exactly when
    `400 ≤ status < 600`.
  * Python exceptions are values of `PyErr`; a function that can raise returns
    `Except PyErr α`.
-/

deriving instance DecidableEq for Except

namespace UpdateAndSend

/-- A baostock result cursor: constant `error_code`, column `fields`, and the
rows the iterator would yield. -/
structure Cursor where
  errorCode : String
  fields : List String
  rows : List (List String)
deriving DecidableEq

/-- Python exceptions that the script can raise or observe. -/
inductive PyErr where
  | runtimeError (msg : String)
  | keyError (key : String)
  | httpError (status : Nat)
  | transportError (msg : String)
  | other (msg : String)
deriving DecidableEq

/-- A pandas `DataFrame` as the script builds it: `pd.DataFrame(rows, columns=fields)`
with every cell a string (baostock row data is all-string). -/
structure DataFrame where
  fields : List String
  rows : List (List String)
deriving DecidableEq

/-- Tokens of the modelled binary payload (see `encode`). -/
inductive Tok where
  | nat (n : Nat)
  | str (s : String)
deriving DecidableEq

/-- Observable events of one run: provider calls, HTTP posts, prints, sleeps. -/
inductive Event where
  | login (errorCode : String)
  | queryAllStock
  | queryHistory (tsCode : String)
  | post (tsCode : String) (payload : List Tok)
  | logout (errorCode : String)
  | sleep (secs : Nat)
  | printed (msg : String)
deriving DecidableEq

/-- Outcomes of the external calls made during one attempt of the retry loop. -/
structure AttemptEnv where
  /-- `bs.login().error_code` -/
  loginCode : String
  /-- `bs.login().error_msg` -/
  loginMsg : String
  /-- outcome of `bs.query_all_stock()`: raises, or returns a cursor -/
  stockQuery : Except PyErr Cursor
  /-- outcome of `bs.query_history_k_data_plus(ts_code, ...)` per instrument -/
  historyQuery : String → Except PyErr Cursor
  /-- outcome of `requests.post` per instrument: transport failure message, or
  a response `(status, body)` -/
  uploadHttp : String → Except String (Nat × String)
  /-- `bs.logout().error_code` (discarded by the script) -/
  logoutCode : String

/-- `MAX_RETRY = 3` -/
def MAX_RETRY : Nat := 3

/-- `START_DATE = "2008-01-01"` -/
def START_DATE : String := "2008-01-01"

def startMsg : String := "🚀 开始执行股票数据获取与发送脚本..."

def loginOkMsg : String := "✅ Baostock 登录成功"

def loginFailMsg (m : String) : String := s!"Baostock 登录失败: {m}"

def listMsg : String := "正在获取所有股票列表..."

def emptyListMsg (i : Nat) : String := s!"⚠️ 第 {i+1} 次尝试：未找到股票数据，正在重试..."

def foundMsg (n : Nat) : String := s!"✅ 找到 {n} 只股票，开始处理。"

def doneMsg : String := "✅ 所有任务完成，Baostock 已登出。"

def failAttemptMsg (i : Nat) : String := s!"❌ 第 {i+1} 次尝试失败"

def exhaustedMsg : String := "❌ 达到最大重试次数，任务失败。"

def fetchingMsg (ts : String) : String := s!"正在获取 {ts} 的全量历史数据..."

def gotMsg (n : Nat) : String := s!"获取到 {n} 条记录"

def skipMsg (ts : String) : String := s!"⚠️ {ts} 无数据，跳过上传"

def sentMsg (ts body : String) : String := s!"✅ {ts} 数据已成功发送给 Worker，响应: {body}"

def sendFailMsg : String := "❌ 发送数据给 Worker 失败"

/-- `while (rs.error_code == "0") & rs.next(): acc.append(rs.get_row_data())`:
collects every row when the error code is `"0"`, none otherwise. -/
def collectRows (c : Cursor) : List (List String) :=
  if c.errorCode = "0" then c.rows else []

/-- `login_baostock()`: `lg = bs.login()`; raise `RuntimeError` on a non-zero
error code, else print the success message. -/
def login_baostock (env : AttemptEnv) : List Event × Except PyErr Unit :=
  if env.loginCode ≠ "0" then
    ([Event.login env.loginCode], Except.error (PyErr.runtimeError (loginFailMsg env.loginMsg)))
  else
    ([Event.login env.loginCode, Event.printed loginOkMsg], Except.ok ())

/-- `fetch_history(ts_code)`: print, issue the history query, collect the rows
into a `DataFrame` with the cursor's columns, print the row count. -/
def fetch_history (env : AttemptEnv) (ts : String) : List Event × Except PyErr DataFrame :=
  let t0 := [Event.printed (fetchingMsg ts), Event.queryHistory ts]
  match env.historyQuery ts with
  | Except.error e => (t0, Except.error e)
  | Except.ok rs =>
    let data := collectRows rs
    let n := data.length
    (t0 ++ [Event.printed (gotMsg n)], Except.ok ⟨rs.fields, data⟩)

/-- Modelled from the spec: the Record Encoder.  In the source this step is
`df.to_parquet(buffer, index=False)`, a call into the pandas/pyarrow library
whose implementation is not part of `src/`; per §4.2 it is a deterministic,
schema-preserving binary serialization of the History Set.  It is modelled as a
token stream: the column count, the column names, then each row prefixed by its
length.  (All cell values in this pipeline are strings, as baostock cursors
yield string rows.) -/
def encode (df : DataFrame) : List Tok :=
  Tok.nat df.fields.length ::
    (df.fields.map Tok.str ++ df.rows.flatMap (fun r => Tok.nat r.length :: r.map Tok.str))

/-- Take `n` leading string tokens; fail on a count mismatch. -/
def takeStrs : Nat → List Tok → Option (List String × List Tok)
  | 0, ts => some ([], ts)
  | n+1, Tok.str s :: ts =>
    match takeStrs n ts with
    | some (l, rest) => some (s :: l, rest)
    | none => none
  | _+1, _ => none

/-- Decode the row section of a payload (fuel-indexed; one unit per row). -/
def decodeRowsF : Nat → List Tok → Option (List (List String))
  | _, [] => some []
  | 0, _ :: _ => none
  | fuel+1, Tok.nat n :: ts =>
    match takeStrs n ts with
    | some (r, rest) =>
      match decodeRowsF fuel rest with
      | some rs => some (r :: rs)
      | none => none
    | none => none
  | _+1, Tok.str _ :: _ => none

/-- Modelled from the spec: decoding of the Record Encoder's payload back into
a History Set (§3: "must be losslessly reconstructible into the original
History Set"). -/
def decode (ts : List Tok) : Option DataFrame :=
  match ts with
  | Tok.nat f :: rest =>
    match takeStrs f rest with
    | some (fields, rest2) =>
      match decodeRowsF rest2.length rest2 with
      | some rows => some ⟨fields, rows⟩
      | none => none
    | none => none
  | _ => none

/-- Is the response status one for which `requests`' `raise_for_status` raises
`HTTPError` (client 4xx and server 5xx errors)? -/
def raiseForStatus (status : Nat) : Bool :=
  decide (400 ≤ status ∧ status < 600)

/-- `send_data_to_worker(ts_code, df)`: skip (with a print) when the frame is
empty; otherwise serialize, POST it, and `raise_for_status()`; a transport
failure or an HTTP error status is printed and re-raised. -/
def send_data_to_worker (env : AttemptEnv) (ts : String) (df : DataFrame) :
    List Event × Except PyErr Unit :=
  if df.rows.isEmpty then
    ([Event.printed (skipMsg ts)], Except.ok ())
  else
    let payload := encode df
    match env.uploadHttp ts with
    | Except.error m =>
      ([Event.post ts payload, Event.printed sendFailMsg], Except.error (PyErr.transportError m))
    | Except.ok (status, body) =>
      if raiseForStatus status then
        ([Event.post ts payload, Event.printed sendFailMsg], Except.error (PyErr.httpError status))
      else
        ([Event.post ts payload, Event.printed (sentMsg ts body)], Except.ok ())

/-- `row["code"]` on a row of `df_stocks`: look the column name up in the
fields and index into the row; a missing column raises `KeyError`. -/
def rowCode (fields row : List String) : Except PyErr String :=
  match fields.indexOf? "code" with
  | none => Except.error (PyErr.keyError "code")
  | some j =>
    match row.get? j with
    | none => Except.error (PyErr.keyError "code")
    | some v => Except.ok v

/-- One iteration of the per-instrument loop body:
`ts_code = row["code"]; df_history = fetch_history(ts_code);
send_data_to_worker(ts_code, df_history)`. -/
def processOne (env : AttemptEnv) (fields row : List String) :
    List Event × Except PyErr Unit :=
  match rowCode fields row with
  | Except.error e => ([], Except.error e)
  | Except.ok ts =>
    match fetch_history env ts with
    | (t1, Except.error e) => (t1, Except.error e)
    | (t1, Except.ok df) =>
      match send_data_to_worker env ts df with
      | (t2, r2) => (t1 ++ t2, r2)

/-- `for index, row in df_stocks.iterrows(): ...` — fail-fast left-to-right
iteration over the enumerated rows. -/
def processStocks (env : AttemptEnv) (fields : List String) :
    List (List String) → List Event × Except PyErr Unit
  | [] => ([], Except.ok ())
  | r :: rest =>
    match processOne env fields r with
    | (t, Except.error e) => (t, Except.error e)
    | (t, Except.ok _) =>
      match processStocks env fields rest with
      | (t2, r2) => (t ++ t2, r2)

/-- Result of one attempt of the outer retry loop. -/
inductive AttemptResult where
  | success
  | retryEmpty
  | retryExc (e : PyErr)
deriving DecidableEq

/-- The `except Exception` handler: print the failure, `bs.logout()` (the
result object is discarded), `time.sleep(5)`. -/
def handler (env : AttemptEnv) (i : Nat) : List Event :=
  [Event.printed (failAttemptMsg i), Event.logout env.logoutCode, Event.sleep 5]

/-- One iteration `i` of `for i in range(MAX_RETRY)`: the whole `try` body —
login, enumerate all stocks, the empty-enumeration `continue` branch, the
per-instrument loop, logout on success — with every raised exception routed to
the `except` handler. -/
def attempt (env : AttemptEnv) (i : Nat) : List Event × AttemptResult :=
  match login_baostock env with
  | (tl, Except.error e) => (tl ++ handler env i, AttemptResult.retryExc e)
  | (tl, Except.ok _) =>
    let t0 := tl ++ [Event.printed listMsg, Event.queryAllStock]
    match env.stockQuery with
    | Except.error e => (t0 ++ handler env i, AttemptResult.retryExc e)
    | Except.ok rs =>
      let stockList := collectRows rs
      let n := stockList.length
      if n = 0 then
        (t0 ++ [Event.printed (emptyListMsg i), Event.logout env.logoutCode, Event.sleep 5],
          AttemptResult.retryEmpty)
      else
        let t1 := t0 ++ [Event.printed (foundMsg n)]
        match processStocks env rs.fields stockList with
        | (tp, Except.error e) => (t1 ++ tp ++ handler env i, AttemptResult.retryExc e)
        | (tp, Except.ok _) =>
          (t1 ++ tp ++ [Event.logout env.logoutCode, Event.printed doneMsg],
            AttemptResult.success)

/-- The retry loop of `main`, iterating over the remaining indices of
`range(MAX_RETRY)`; falling off the loop prints the exhaustion message. -/
def mainGo (envs : Nat → AttemptEnv) : List Nat → List Event × Except PyErr Unit
  | [] => ([Event.printed exhaustedMsg], Except.ok ())
  | i :: rest =>
    match attempt (envs i) i with
    | (t, AttemptResult.success) => (t, Except.ok ())
    | (t, _) =>
      match mainGo envs rest with
      | (t2, r2) => (t ++ t2, r2)

/-- `main()`: the start banner, then the retry loop over `range(MAX_RETRY)`. -/
def main (envs : Nat → AttemptEnv) : List Event × Except PyErr Unit :=
  match mainGo envs (List.range MAX_RETRY) with
  | (t, r) => (Event.printed startMsg :: t, r)

/-- Predicate for HTTP POST events. -/
def isPostEv : Event → Bool
  | Event.post _ _ => true
  | _ => false

/-- Predicate for `bs.login()` call events. -/
def isLoginEv : Event → Bool
  | Event.login _ => true
  | _ => false

/-- Is the exception an upload failure (the spec's `UploadError`): a non-success
HTTP status or a transport-level failure? -/
def isUploadErr : PyErr → Bool
  | PyErr.httpError _ => true
  | PyErr.transportError _ => true
  | _ => false

/-- The same environment with a different `bs.logout()` result: used to state
that the orchestrator's behaviour never depends on the close call's outcome. -/
def withLogout (env : AttemptEnv) (lc : String) : AttemptEnv :=
  ⟨env.loginCode, env.loginMsg, env.stockQuery, env.historyQuery, env.uploadHttp, lc⟩

/-- Concrete environment for C6: the history cursor for the single stock
reports error code `"10001"` while holding a row. -/
def c6env : AttemptEnv :=
  ⟨"0", "", Except.ok ⟨"0", ["code"], [["AAA"]]⟩,
    fun _ => Except.ok ⟨"10001", ["date", "close"], [["2020-01-02", "1.23"]]⟩,
    fun _ => Except.ok (200, "ok"), "0"⟩

/-- Concrete environment for C8: every attempt's login is rejected. -/
def c8env : Nat → AttemptEnv := fun _ =>
  ⟨"10001", "login rejected", Except.error (PyErr.other "unused"),
    fun _ => Except.error (PyErr.other "unused"), fun _ => Except.error "unused", "0"⟩

/-- Concrete environment for C9: the worker answers status 304 (not a 2xx). -/
def c9env : AttemptEnv :=
  ⟨"0", "", Except.ok ⟨"0", ["code"], [["AAA"]]⟩,
    fun _ => Except.ok ⟨"0", ["date"], [["2020-01-02"]]⟩,
    fun _ => Except.ok (304, "not modified"), "0"⟩

/-- Concrete environment for the C1 witness: three stocks, the second one's
upload is answered with HTTP 500. -/
def c1env : Nat → AttemptEnv := fun _ =>
  ⟨"0", "", Except.ok ⟨"0", ["code"], [["AAA"], ["BBB"], ["CCC"]]⟩,
    fun ts => Except.ok ⟨"0", ["date"], [[ts ++ "-row"]]⟩,
    fun ts => if ts = "BBB" then Except.ok (500, "boom") else Except.ok (200, "ok"), "0"⟩

/-- Concrete environment for the C2 witness: enumeration always raises. -/
def c2env : Nat → AttemptEnv := fun _ =>
  ⟨"0", "", Except.error (PyErr.other "socket closed"),
    fun _ => Except.error (PyErr.other "socket closed"),
    fun _ => Except.error "socket closed", "0"⟩

/-- Concrete environment for the C3 witness: the single stock has no history. -/
def c3env : AttemptEnv :=
  ⟨"0", "", Except.ok ⟨"0", ["code"], [["AAA"]]⟩,
    fun _ => Except.ok ⟨"0", ["date", "close"], []⟩,
    fun _ => Except.ok (200, "ok"), "0"⟩

/-- Concrete environment for the C4 witness: enumeration returns zero stocks. -/
def c4env : Nat → AttemptEnv := fun _ =>
  ⟨"0", "", Except.ok ⟨"0", ["code"], []⟩,
    fun _ => Except.ok ⟨"0", ["date"], []⟩,
    fun _ => Except.ok (200, "ok"), "0"⟩

/-- Concrete environment for the C7 witness: enumeration raises, and the
logout result code is a failure (which must be ignored). -/
def c7env : Nat → AttemptEnv := fun _ =>
  ⟨"0", "", Except.error (PyErr.other "connection reset"),
    fun _ => Except.error (PyErr.other "connection reset"),
    fun _ => Except.error "connection reset", "10002"⟩

/-- Concrete environment for the C9 witness: a 200 response. -/
def c9wenv : AttemptEnv :=
  ⟨"0", "", Except.ok ⟨"0", ["code"], [["AAA"]]⟩,
    fun _ => Except.ok ⟨"0", ["date"], [["2020-01-02"]]⟩,
    fun _ => Except.ok (200, "stored"), "0"⟩

/-- Concrete environment for the C10 witness: every attempt fails at login. -/
def c10env : Nat → AttemptEnv := fun _ =>
  ⟨"10001", "denied", Except.error (PyErr.other "unused"),
    fun _ => Except.error (PyErr.other "unused"), fun _ => Except.error "unused", "0"⟩

/-! ### Branch equations for the embedded functions -/

theorem login_baostock_ok (env : AttemptEnv) (hl : env.loginCode = "0") :
    login_baostock env = ([Event.login "0", Event.printed loginOkMsg], Except.ok ()) := by
  simp [login_baostock, hl]

theorem login_baostock_err (env : AttemptEnv) (hl : env.loginCode ≠ "0") :
    login_baostock env =
      ([Event.login env.loginCode],
        Except.error (PyErr.runtimeError (loginFailMsg env.loginMsg))) := by
  simp [login_baostock, hl]

theorem fetch_history_ok (env : AttemptEnv) (ts : String) (c : Cursor)
    (h : env.historyQuery ts = Except.ok c) :
    fetch_history env ts =
      ([Event.printed (fetchingMsg ts), Event.queryHistory ts,
        Event.printed (gotMsg (collectRows c).length)],
        Except.ok ⟨c.fields, collectRows c⟩) := by
  simp [fetch_history, h]

theorem fetch_history_err (env : AttemptEnv) (ts : String) (e : PyErr)
    (h : env.historyQuery ts = Except.error e) :
    fetch_history env ts =
      ([Event.printed (fetchingMsg ts), Event.queryHistory ts], Except.error e) := by
  simp [fetch_history, h]

theorem send_empty (env : AttemptEnv) (ts : String) (df : DataFrame) (h : df.rows = []) :
    send_data_to_worker env ts df = ([Event.printed (skipMsg ts)], Except.ok ()) := by
  simp [send_data_to_worker, h]

theorem send_transport_err (env : AttemptEnv) (ts : String) (df : DataFrame) (m : String)
    (hne : df.rows ≠ []) (h : env.uploadHttp ts = Except.error m) :
    send_data_to_worker env ts df =
      ([Event.post ts (encode df), Event.printed sendFailMsg],
        Except.error (PyErr.transportError m)) := by
  simp [send_data_to_worker, hne, h]

theorem send_http_err (env : AttemptEnv) (ts : String) (df : DataFrame) (status : Nat)
    (body : String) (hne : df.rows ≠ []) (h : env.uploadHttp ts = Except.ok (status, body))
    (hs : raiseForStatus status = true) :
    send_data_to_worker env ts df =
      ([Event.post ts (encode df), Event.printed sendFailMsg],
        Except.error (PyErr.httpError status)) := by
  simp [send_data_to_worker, hne, h, hs]

theorem send_ok (env : AttemptEnv) (ts : String) (df : DataFrame) (status : Nat)
    (body : String) (hne : df.rows ≠ []) (h : env.uploadHttp ts = Except.ok (status, body))
    (hs : raiseForStatus status = false) :
    send_data_to_worker env ts df =
      ([Event.post ts (encode df), Event.printed (sentMsg ts body)], Except.ok ()) := by
  simp [send_data_to_worker, hne, h, hs]

theorem processStocks_cons_ok (env : AttemptEnv) (fields r : List String)
    (rest : List (List String)) (h : (processOne env fields r).2 = Except.ok ()) :
    processStocks env fields (r :: rest) =
      ((processOne env fields r).1 ++ (processStocks env fields rest).1,
        (processStocks env fields rest).2) := by
  rcases hp : processOne env fields r with ⟨t, ro⟩
  rw [hp] at h
  simp only at h
  subst h
  rcases hq : processStocks env fields rest with ⟨t2, r2⟩
  simp [processStocks, hp, hq]

theorem processStocks_cons_err (env : AttemptEnv) (fields r : List String)
    (rest : List (List String)) (e : PyErr)
    (h : (processOne env fields r).2 = Except.error e) :
    processStocks env fields (r :: rest) = ((processOne env fields r).1, Except.error e) := by
  rcases hp : processOne env fields r with ⟨t, ro⟩
  rw [hp] at h
  simp only at h
  subst h
  simp [processStocks, hp]

/-- Fail-fast shape of the per-instrument loop: if every row before `row`
processes successfully and `row` raises, the loop's trace consists of exactly
the events of the prefix and of `row` — nothing of `post` is touched — and the
exception propagates. -/
theorem processStocks_append_err (env : AttemptEnv) (fields : List String)
    (pre : List (List String)) (row : List String) (post : List (List String)) (e : PyErr)
    (hpre : ∀ r ∈ pre, (processOne env fields r).2 = Except.ok ())
    (hrow : (processOne env fields row).2 = Except.error e) :
    processStocks env fields (pre ++ row :: post) =
      ((pre.flatMap fun r => (processOne env fields r).1) ++ (processOne env fields row).1,
        Except.error e) := by
  induction pre with
  | nil =>
    simpa using processStocks_cons_err env fields row post e hrow
  | cons r pre ih =>
    have hr : (processOne env fields r).2 = Except.ok () := hpre r (by simp)
    have hrest : ∀ q ∈ pre, (processOne env fields q).2 = Except.ok () := by
      intro q hq
      exact hpre q (by simp [hq])
    rw [List.cons_append, processStocks_cons_ok env fields r _ hr, ih hrest]
    simp

theorem processStocks_all_ok (env : AttemptEnv) (fields : List String)
    (rows : List (List String))
    (h : ∀ r ∈ rows, (processOne env fields r).2 = Except.ok ()) :
    processStocks env fields rows =
      ((rows.flatMap fun r => (processOne env fields r).1), Except.ok ()) := by
  induction rows with
  | nil => rfl
  | cons r rest ih =>
    have hr : (processOne env fields r).2 = Except.ok () := h r (by simp)
    have hrest : ∀ q ∈ rest, (processOne env fields q).2 = Except.ok () := by
      intro q hq
      exact h q (by simp [hq])
    rw [processStocks_cons_ok env fields r _ hr, ih hrest]
    simp

/-! ### Branch equations for `attempt` and `mainGo` -/

theorem attempt_login_err (env : AttemptEnv) (i : Nat) (hl : env.loginCode ≠ "0") :
    attempt env i =
      ([Event.login env.loginCode, Event.printed (failAttemptMsg i),
        Event.logout env.logoutCode, Event.sleep 5],
        AttemptResult.retryExc (PyErr.runtimeError (loginFailMsg env.loginMsg))) := by
  rw [attempt, login_baostock_err env hl]
  simp [handler]

theorem attempt_enum_err (env : AttemptEnv) (i : Nat) (e : PyErr)
    (hl : env.loginCode = "0") (hq : env.stockQuery = Except.error e) :
    attempt env i =
      ([Event.login "0", Event.printed loginOkMsg, Event.printed listMsg, Event.queryAllStock,
        Event.printed (failAttemptMsg i), Event.logout env.logoutCode, Event.sleep 5],
        AttemptResult.retryExc e) := by
  rw [attempt, login_baostock_ok env hl]
  simp [hq, handler]

theorem attempt_empty_enum (env : AttemptEnv) (i : Nat) (c : Cursor)
    (hl : env.loginCode = "0") (hq : env.stockQuery = Except.ok c)
    (he : collectRows c = []) :
    attempt env i =
      ([Event.login "0", Event.printed loginOkMsg, Event.printed listMsg, Event.queryAllStock,
        Event.printed (emptyListMsg i), Event.logout env.logoutCode, Event.sleep 5],
        AttemptResult.retryEmpty) := by
  rw [attempt, login_baostock_ok env hl]
  simp [hq, he]

theorem attempt_loop_err (env : AttemptEnv) (i : Nat) (c : Cursor) (tp : List Event) (e : PyErr)
    (hl : env.loginCode = "0") (hq : env.stockQuery = Except.ok c)
    (hne : collectRows c ≠ [])
    (hp : processStocks env c.fields (collectRows c) = (tp, Except.error e)) :
    attempt env i =
      ([Event.login "0", Event.printed loginOkMsg, Event.printed listMsg, Event.queryAllStock,
        Event.printed (foundMsg (collectRows c).length)] ++ tp ++
        [Event.printed (failAttemptMsg i), Event.logout env.logoutCode, Event.sleep 5],
        AttemptResult.retryExc e) := by
  rw [attempt, login_baostock_ok env hl]
  have hlen : (collectRows c).length ≠ 0 := by
    simpa using fun h => hne (List.length_eq_zero.mp h)
  simp [hq, hlen, hp, handler]

theorem attempt_loop_ok (env : AttemptEnv) (i : Nat) (c : Cursor) (tp : List Event)
    (hl : env.loginCode = "0") (hq : env.stockQuery = Except.ok c)
    (hne : collectRows c ≠ [])
    (hp : processStocks env c.fields (collectRows c) = (tp, Except.ok ())) :
    attempt env i =
      ([Event.login "0", Event.printed loginOkMsg, Event.printed listMsg, Event.queryAllStock,
        Event.printed (foundMsg (collectRows c).length)] ++ tp ++
        [Event.logout env.logoutCode, Event.printed doneMsg],
        AttemptResult.success) := by
  rw [attempt, login_baostock_ok env hl]
  have hlen : (collectRows c).length ≠ 0 := by
    simpa using fun h => hne (List.length_eq_zero.mp h)
  simp [hq, hlen, hp]

/-- Every attempt's trace begins with the `bs.login()` call: each iteration of
the retry loop re-enters the login step first. -/
theorem attempt_starts_with_login (env : AttemptEnv) (i : Nat) :
    ((attempt env i).1).head? = some (Event.login env.loginCode) := by
  by_cases hl : env.loginCode = "0"
  · rw [attempt, login_baostock_ok env hl, hl]
    rcases hq : env.stockQuery with e | c
    · simp
    · by_cases he : collectRows c = []
      · simp [he]
      · have hlen : (collectRows c).length ≠ 0 := by
          simpa using fun h => he (List.length_eq_zero.mp h)
        rcases hp : processStocks env c.fields (collectRows c) with ⟨tp, rp⟩
        rcases rp with e | u
        · simp [hlen, hp]
        · simp [hlen, hp]
  · rw [attempt_login_err env i hl]
    simp

theorem mainGo_nil (envs : Nat → AttemptEnv) :
    mainGo envs [] = ([Event.printed exhaustedMsg], Except.ok ()) := rfl

theorem mainGo_cons_success (envs : Nat → AttemptEnv) (i : Nat) (rest : List Nat)
    (h : (attempt (envs i) i).2 = AttemptResult.success) :
    mainGo envs (i :: rest) = ((attempt (envs i) i).1, Except.ok ()) := by
  rcases ha : attempt (envs i) i with ⟨t, r⟩
  rw [ha] at h
  simp only at h
  subst h
  simp [mainGo, ha]

theorem mainGo_cons_retry (envs : Nat → AttemptEnv) (i : Nat) (rest : List Nat)
    (h : (attempt (envs i) i).2 ≠ AttemptResult.success) :
    mainGo envs (i :: rest) =
      ((attempt (envs i) i).1 ++ (mainGo envs rest).1, (mainGo envs rest).2) := by
  rcases ha : attempt (envs i) i with ⟨t, r⟩
  rw [ha] at h
  simp only at h
  rcases hm : mainGo envs rest with ⟨t2, r2⟩
  cases r with
  | success => exact absurd rfl h
  | retryEmpty => simp [mainGo, ha, hm]
  | retryExc e => simp [mainGo, ha, hm]

theorem range_max_retry : List.range MAX_RETRY = [0, 1, 2] := rfl

theorem main_eq (envs : Nat → AttemptEnv) :
    main envs =
      (Event.printed startMsg :: (mainGo envs [0, 1, 2]).1, (mainGo envs [0, 1, 2]).2) := by
  rcases hm : mainGo envs [0, 1, 2] with ⟨t, r⟩
  rw [main, range_max_retry, hm]

/-- The first event of the retry loop on a non-empty index list is the next
attempt's login call. -/
theorem mainGo_starts_with_login (envs : Nat → AttemptEnv) (j : Nat) (rest : List Nat) :
    ((mainGo envs (j :: rest)).1).head? = some (Event.login (envs j).loginCode) := by
  rcases ha : attempt (envs j) j with ⟨t, r⟩
  have ht : t.head? = some (Event.login (envs j).loginCode) := by
    have := attempt_starts_with_login (envs j) j
    rw [ha] at this
    exact this
  rcases hm : mainGo envs rest with ⟨t2, r2⟩
  cases r with
  | success => simp [mainGo, ha, ht]
  | retryEmpty => simp [mainGo, ha, hm, List.head?_append, ht]
  | retryExc e => simp [mainGo, ha, hm, List.head?_append, ht]

/-! ### Round-trip of the modelled encoder (claim C5) -/

theorem takeStrs_append_strs (l : List String) (rest : List Tok) :
    takeStrs l.length (l.map Tok.str ++ rest) = some (l, rest) := by
  induction l with
  | nil => rfl
  | cons s l ih => simp [takeStrs, ih]

theorem rows_length_le_encoded (rows : List (List String)) :
    rows.length ≤ (rows.flatMap fun r => Tok.nat r.length :: r.map Tok.str).length := by
  induction rows with
  | nil => simp
  | cons r rest ih =>
    simp only [List.flatMap_cons, List.length_append, List.length_cons, List.length_map]
    omega

theorem decodeRowsF_encoded (rows : List (List String)) :
    ∀ fuel, rows.length ≤ fuel →
      decodeRowsF fuel (rows.flatMap fun r => Tok.nat r.length :: r.map Tok.str) = some rows := by
  induction rows with
  | nil =>
    intro fuel _
    cases fuel <;> rfl
  | cons r rest ih =>
    intro fuel hf
    match fuel with
    | fuel + 1 =>
      have hr : rest.length ≤ fuel := by
        simp only [List.length_cons] at hf
        omega
      have hflat : ((r :: rest).flatMap fun q => Tok.nat q.length :: q.map Tok.str) =
          Tok.nat r.length ::
            (r.map Tok.str ++ rest.flatMap fun q => Tok.nat q.length :: q.map Tok.str) := by
        simp
      rw [hflat, decodeRowsF, takeStrs_append_strs]
      simp [ih fuel hr]

/-- If every attempt in the remaining index list fails, the loop runs them all
in order and falls through to the exhaustion message. -/
theorem mainGo_all_retry (envs : Nat → AttemptEnv) (l : List Nat)
    (h : ∀ i ∈ l, (attempt (envs i) i).2 ≠ AttemptResult.success) :
    mainGo envs l =
      ((l.flatMap fun i => (attempt (envs i) i).1) ++ [Event.printed exhaustedMsg],
        Except.ok ()) := by
  induction l with
  | nil => simp [mainGo_nil]
  | cons i rest ih =>
    rw [mainGo_cons_retry envs i rest (h i (by simp)), ih (fun j hj => h j (by simp [hj]))]
    simp

/-- The retry loop never lets an exception escape: its second component is
always the normal `None` return. -/
theorem mainGo_snd_ok (envs : Nat → AttemptEnv) (l : List Nat) :
    (mainGo envs l).2 = Except.ok () := by
  induction l with
  | nil => rfl
  | cons i rest ih =>
    by_cases h : (attempt (envs i) i).2 = AttemptResult.success
    · rw [mainGo_cons_success envs i rest h]
    · rw [mainGo_cons_retry envs i rest h]
      exact ih

/-- After login succeeds, the attempt's trace always continues with the
enumeration phase: the list message and the `query_all_stock` call. -/
theorem attempt_enum_prefix (env : AttemptEnv) (i : Nat) (hl : env.loginCode = "0") :
    ∃ t, (attempt env i).1 =
      [Event.login "0", Event.printed loginOkMsg, Event.printed listMsg,
        Event.queryAllStock] ++ t := by
  rcases hq : env.stockQuery with e | c
  · rw [attempt_enum_err env i e hl hq]
    exact ⟨[Event.printed (failAttemptMsg i), Event.logout env.logoutCode, Event.sleep 5],
      by simp⟩
  · by_cases he : collectRows c = []
    · rw [attempt_empty_enum env i c hl hq he]
      exact ⟨[Event.printed (emptyListMsg i), Event.logout env.logoutCode, Event.sleep 5],
        by simp⟩
    · rcases hp : processStocks env c.fields (collectRows c) with ⟨tp, rp⟩
      rcases rp with e | u
      · rw [attempt_loop_err env i c tp e hl hq he hp]
        exact ⟨Event.printed (foundMsg (collectRows c).length) ::
          (tp ++ [Event.printed (failAttemptMsg i), Event.logout env.logoutCode,
            Event.sleep 5]), by simp⟩
      · cases u
        rw [attempt_loop_ok env i c tp hl hq he hp]
        exact ⟨Event.printed (foundMsg (collectRows c).length) ::
          (tp ++ [Event.logout env.logoutCode, Event.printed doneMsg]), by simp⟩

/-- If the first remaining attempt opens its session successfully, the loop's
trace begins with that attempt's login and a fresh full enumeration. -/
theorem mainGo_enum_prefix (envs : Nat → AttemptEnv) (j : Nat) (rest2 : List Nat)
    (hl : (envs j).loginCode = "0") :
    ∃ t, (mainGo envs (j :: rest2)).1 =
      [Event.login "0", Event.printed loginOkMsg, Event.printed listMsg,
        Event.queryAllStock] ++ t := by
  obtain ⟨t, ht⟩ := attempt_enum_prefix (envs j) j hl
  by_cases h : (attempt (envs j) j).2 = AttemptResult.success
  · rw [mainGo_cons_success envs j rest2 h]
    exact ⟨t, ht⟩
  · rw [mainGo_cons_retry envs j rest2 h, ht]
    exact ⟨t ++ (mainGo envs rest2).1, by simp⟩

/-- Every attempt that ends in an exception ends with the `except` handler:
the failure print, the best-effort `bs.logout()` and the 5-second sleep. -/
theorem attempt_retryExc_trace (env : AttemptEnv) (i : Nat) (e : PyErr)
    (h : (attempt env i).2 = AttemptResult.retryExc e) :
    ∃ t, (attempt env i).1 =
      t ++ [Event.printed (failAttemptMsg i), Event.logout env.logoutCode, Event.sleep 5] := by
  by_cases hl : env.loginCode = "0"
  · rcases hq : env.stockQuery with e2 | c
    · rw [attempt_enum_err env i e2 hl hq]
      exact ⟨[Event.login "0", Event.printed loginOkMsg, Event.printed listMsg,
        Event.queryAllStock], by simp⟩
    · by_cases he : collectRows c = []
      · rw [attempt_empty_enum env i c hl hq he] at h
        simp at h
      · rcases hp : processStocks env c.fields (collectRows c) with ⟨tp, rp⟩
        rcases rp with e2 | u
        · rw [attempt_loop_err env i c tp e2 hl hq he hp]
          exact ⟨[Event.login "0", Event.printed loginOkMsg, Event.printed listMsg,
            Event.queryAllStock, Event.printed (foundMsg (collectRows c).length)] ++ tp,
            by simp⟩
        · cases u
          rw [attempt_loop_ok env i c tp hl hq he hp] at h
          simp at h
  · rw [attempt_login_err env i hl]
    exact ⟨[Event.login env.loginCode], by simp⟩

/-! ### Claim theorems -/

/-- C5: For every History Set H, decoding the encoder's binary payload for H
yields a History Set identical to H in row values, row order, and schema
(column names and types): `decode (encode H) = some H`. -/
theorem decode_encode (df : DataFrame) : decode (encode df) = some df := by
  rcases df with ⟨fields, rows⟩
  have hd := decodeRowsF_encoded rows
    ((rows.flatMap fun r => Tok.nat r.length :: r.map Tok.str).length)
    (rows_length_le_encoded rows)
  simp only [encode, decode, takeStrs_append_strs, hd]

/-- C3: For every instrument whose fetched History Set is empty, the upload
step performs no network call (the processing trace holds prints and the
history query only, no `post`), returns success trivially, and the run attempt
is not aborted: the loop continues with the remaining instruments. -/
theorem empty_history_skips_upload (env : AttemptEnv) (fields row : List String)
    (rest : List (List String)) (ts : String) (c : Cursor)
    (hts : rowCode fields row = Except.ok ts)
    (hc : env.historyQuery ts = Except.ok c)
    (he : collectRows c = []) :
    processOne env fields row =
      ([Event.printed (fetchingMsg ts), Event.queryHistory ts, Event.printed (gotMsg 0),
        Event.printed (skipMsg ts)], Except.ok ()) ∧
    processStocks env fields (row :: rest) =
      ((processOne env fields row).1 ++ (processStocks env fields rest).1,
        (processStocks env fields rest).2) := by
  have hf := fetch_history_ok env ts c hc
  rw [he] at hf
  have h1 : processOne env fields row =
      ([Event.printed (fetchingMsg ts), Event.queryHistory ts, Event.printed (gotMsg 0),
        Event.printed (skipMsg ts)], Except.ok ()) := by
    simp [processOne, hts, hf, send_data_to_worker]
  exact ⟨h1, processStocks_cons_ok env fields row rest (by rw [h1])⟩

/-- C4: Whenever enumeration returns an empty sequence, the attempt performs no
fetch, encode, or upload (its whole trace is login, the enumeration query, the
warning print, logout and the backoff sleep), closes the session, waits the
backoff, and the run restarts with the remaining retry indices — the attempt
is consumed from the bounded budget — the next attempt (if any) starting from
login. -/
theorem empty_enumeration_retries (envs : Nat → AttemptEnv) (i : Nat) (rest : List Nat)
    (c : Cursor)
    (hl : (envs i).loginCode = "0") (hq : (envs i).stockQuery = Except.ok c)
    (he : collectRows c = []) :
    attempt (envs i) i =
      ([Event.login "0", Event.printed loginOkMsg, Event.printed listMsg, Event.queryAllStock,
        Event.printed (emptyListMsg i), Event.logout (envs i).logoutCode, Event.sleep 5],
        AttemptResult.retryEmpty) ∧
    mainGo envs (i :: rest) =
      ((attempt (envs i) i).1 ++ (mainGo envs rest).1, (mainGo envs rest).2) ∧
    (∀ j rest2, rest = j :: rest2 →
      ((mainGo envs rest).1).head? = some (Event.login (envs j).loginCode)) := by
  have h1 := attempt_empty_enum (envs i) i c hl hq he
  refine ⟨h1, mainGo_cons_retry envs i rest (by rw [h1]; simp), ?_⟩
  intro j rest2 hr
  subst hr
  exact mainGo_starts_with_login envs j rest2

/-- C2: When each of the `MAX_RETRY` (= 3) whole-run attempts fails, the
pipeline performs exactly those three attempts, then prints the exhaustion
message and terminates normally — nothing (no login, fetch, or upload) follows
the failure report. -/
theorem exhausted_retries_terminate (envs : Nat → AttemptEnv)
    (h : ∀ i, i < MAX_RETRY → (attempt (envs i) i).2 ≠ AttemptResult.success) :
    MAX_RETRY = 3 ∧
    main envs =
      (Event.printed startMsg ::
        ((attempt (envs 0) 0).1 ++ ((attempt (envs 1) 1).1 ++ ((attempt (envs 2) 2).1 ++
          [Event.printed exhaustedMsg]))), Except.ok ()) := by
  refine ⟨rfl, ?_⟩
  rw [main_eq, mainGo_all_retry envs [0, 1, 2] ?_]
  · simp
  · intro i hi
    have : i < MAX_RETRY := by
        simp at hi
        rcases hi with rfl | rfl | rfl <;> decide
    exact h i this

/-- C10: `main` returns normally with the same `None` result both on success
and after exhausting the retry budget — no exception and no distinct return
value; in the exhaustion case the overall failure is observable only as the
final printed status message. -/
theorem main_returns_ok_always (envs : Nat → AttemptEnv) :
    (main envs).2 = Except.ok () ∧
    ((∀ i, i < MAX_RETRY → (attempt (envs i) i).2 ≠ AttemptResult.success) →
      ((main envs).1).getLast? = some (Event.printed exhaustedMsg)) := by
  constructor
  · rw [main_eq]
    exact mainGo_snd_ok envs [0, 1, 2]
  · intro h
    have hall : ∀ i ∈ [0, 1, 2], (attempt (envs i) i).2 ≠ AttemptResult.success := by
      intro i hi
      have : i < MAX_RETRY := by
        simp at hi
        rcases hi with rfl | rfl | rfl <;> decide
      exact h i this
    rw [main_eq, mainGo_all_retry envs [0, 1, 2] hall]
    have hsplit :
        Event.printed startMsg ::
            (([0, 1, 2].flatMap fun i => (attempt (envs i) i).1) ++
              [Event.printed exhaustedMsg]) =
          (Event.printed startMsg ::
            ([0, 1, 2].flatMap fun i => (attempt (envs i) i).1)) ++
            [Event.printed exhaustedMsg] := by
      simp
    simp only [hsplit]
    exact List.getLast?_concat _

theorem processOne_withLogout (env : AttemptEnv) (lc : String) (fields row : List String) :
    processOne (withLogout env lc) fields row = processOne env fields row := rfl

theorem processStocks_withLogout (env : AttemptEnv) (lc : String) (fields : List String) :
    ∀ rows, processStocks (withLogout env lc) fields rows = processStocks env fields rows := by
  intro rows
  induction rows with
  | nil => rfl
  | cons r rest ih =>
    rcases hp : processOne env fields r with ⟨t, ro⟩
    rcases ro with e | u
    · simp [processStocks, processOne_withLogout, hp]
    · simp [processStocks, processOne_withLogout, hp, ih]

/-- The attempt's outcome never depends on what `bs.logout()` reports: the
script discards the logout result. -/
theorem attempt_snd_withLogout (env : AttemptEnv) (lc : String) (i : Nat) :
    (attempt (withLogout env lc) i).2 = (attempt env i).2 := by
  by_cases hl : env.loginCode = "0"
  · have hl2 : (withLogout env lc).loginCode = "0" := hl
    rcases hq : env.stockQuery with e | c
    · have hq2 : (withLogout env lc).stockQuery = Except.error e := hq
      rw [attempt_enum_err env i e hl hq, attempt_enum_err _ i e hl2 hq2]
    · have hq2 : (withLogout env lc).stockQuery = Except.ok c := hq
      by_cases he : collectRows c = []
      · rw [attempt_empty_enum env i c hl hq he, attempt_empty_enum _ i c hl2 hq2 he]
      · rcases hp : processStocks env c.fields (collectRows c) with ⟨tp, rp⟩
        have hp2 : processStocks (withLogout env lc) c.fields (collectRows c) = (tp, rp) := by
          rw [processStocks_withLogout]
          exact hp
        rcases rp with e | u
        · rw [attempt_loop_err env i c tp e hl hq he hp,
            attempt_loop_err _ i c tp e hl2 hq2 he hp2]
        · cases u
          rw [attempt_loop_ok env i c tp hl hq he hp,
            attempt_loop_ok _ i c tp hl2 hq2 he hp2]
  · have hl2 : (withLogout env lc).loginCode ≠ "0" := hl
    rw [attempt_login_err env i hl, attempt_login_err _ i hl2]
    rfl

/-- C1: If, within an attempt, every instrument before `row` processes
successfully and `row` raises an `UploadError`, the attempt's whole trace
consists of login, the single enumeration, the prefix instruments' events and
`row`'s events followed by the failure handler — no fetch, encode, or upload
touches any later instrument — the attempt aborts with that exception, the
failed attempt is consumed from the retry budget, and the next attempt (if
any) restarts from login and re-enumerates the instrument list afresh. -/
theorem uploadError_aborts_attempt_and_restarts
    (envs : Nat → AttemptEnv) (i : Nat) (rest : List Nat) (c : Cursor)
    (pre : List (List String)) (row : List String) (post : List (List String)) (e : PyErr)
    (hl : (envs i).loginCode = "0")
    (hq : (envs i).stockQuery = Except.ok c)
    (hrows : collectRows c = pre ++ row :: post)
    (hpre : ∀ r ∈ pre, (processOne (envs i) c.fields r).2 = Except.ok ())
    (hrow : (processOne (envs i) c.fields row).2 = Except.error e)
    (hup : isUploadErr e = true) :
    attempt (envs i) i =
      ([Event.login "0", Event.printed loginOkMsg, Event.printed listMsg, Event.queryAllStock,
        Event.printed (foundMsg (pre ++ row :: post).length)] ++
        ((pre.flatMap fun r => (processOne (envs i) c.fields r).1) ++
          (processOne (envs i) c.fields row).1) ++
        [Event.printed (failAttemptMsg i), Event.logout (envs i).logoutCode, Event.sleep 5],
        AttemptResult.retryExc e) ∧
    mainGo envs (i :: rest) =
      ((attempt (envs i) i).1 ++ (mainGo envs rest).1, (mainGo envs rest).2) ∧
    (∀ j rest2, rest = j :: rest2 →
      ((mainGo envs rest).1).head? = some (Event.login (envs j).loginCode)) ∧
    (∀ j rest2, rest = j :: rest2 → (envs j).loginCode = "0" →
      ∃ t, (mainGo envs rest).1 =
        [Event.login "0", Event.printed loginOkMsg, Event.printed listMsg,
          Event.queryAllStock] ++ t) := by
  have hp : processStocks (envs i) c.fields (collectRows c) =
      ((pre.flatMap fun r => (processOne (envs i) c.fields r).1) ++
        (processOne (envs i) c.fields row).1, Except.error e) := by
    rw [hrows]
    exact processStocks_append_err (envs i) c.fields pre row post e hpre hrow
  have hne : collectRows c ≠ [] := by
    rw [hrows]
    simp
  have h1 := attempt_loop_err (envs i) i c _ e hl hq hne hp
  rw [hrows] at h1
  refine ⟨h1, mainGo_cons_retry envs i rest (by rw [h1]; simp), ?_, ?_⟩
  · intro j rest2 hr
    subst hr
    exact mainGo_starts_with_login envs j rest2
  · intro j rest2 hr hlj
    subst hr
    exact mainGo_enum_prefix envs j rest2 hlj

/-- C7: Whenever an attempt ends with a raised exception (enumeration, the
per-instrument loop, or login itself), the handler closes the session and
sleeps the fixed backoff (the trace ends with the failure print, the logout
and the 5-second sleep); whatever the close reports is ignored and never
escapes (the attempt outcome is the same retry for every logout result); the
failed attempt is consumed from the bounded budget and the next attempt (if
any) re-enters the login step. -/
theorem exception_closes_sleeps_retries
    (envs : Nat → AttemptEnv) (i : Nat) (rest : List Nat) (e : PyErr)
    (h : (attempt (envs i) i).2 = AttemptResult.retryExc e) :
    (∃ t, (attempt (envs i) i).1 =
      t ++ [Event.printed (failAttemptMsg i), Event.logout (envs i).logoutCode,
        Event.sleep 5]) ∧
    (∀ lc, (attempt (withLogout (envs i) lc) i).2 = AttemptResult.retryExc e) ∧
    mainGo envs (i :: rest) =
      ((attempt (envs i) i).1 ++ (mainGo envs rest).1, (mainGo envs rest).2) ∧
    (∀ j rest2, rest = j :: rest2 →
      ((mainGo envs rest).1).head? = some (Event.login (envs j).loginCode)) := by
  refine ⟨attempt_retryExc_trace (envs i) i e h, ?_,
    mainGo_cons_retry envs i rest (by rw [h]; simp), ?_⟩
  · intro lc
    rw [attempt_snd_withLogout (envs i) lc i]
    exact h
  · intro j rest2 hr
    subst hr
    exact mainGo_starts_with_login envs j rest2

/-- C6 as stated is false on the code: with the history cursor reporting the
non-zero error code `"10001"` while rows are available, `fetch_history`
returns an empty History Set with no exception, the upload is skipped, and the
attempt runs to success instead of aborting — no `FetchError` propagates. -/
theorem fetch_error_code_not_aborting_cex :
    (fetch_history c6env "AAA").2 = Except.ok ⟨["date", "close"], []⟩ ∧
    (attempt c6env 0).2 = AttemptResult.success ∧
    (attempt c6env 0).1.countP isPostEv = 0 ∧
    (main fun _ => c6env).2 = Except.ok () := by decide

/-- C6 amended: when the provider cursor reports a non-`"0"` error code during
row extraction, the row-collection loop collects nothing, so `fetch_history`
silently returns an empty History Set (no exception is raised), and the upload
step for that instrument is skipped — the run attempt continues instead of
aborting. -/
theorem fetch_error_code_silent_empty (env : AttemptEnv) (ts : String) (c : Cursor)
    (h : env.historyQuery ts = Except.ok c) (hc : c.errorCode ≠ "0") :
    fetch_history env ts =
      ([Event.printed (fetchingMsg ts), Event.queryHistory ts, Event.printed (gotMsg 0)],
        Except.ok ⟨c.fields, []⟩) ∧
    send_data_to_worker env ts ⟨c.fields, []⟩ =
      ([Event.printed (skipMsg ts)], Except.ok ()) := by
  have he : collectRows c = [] := by simp [collectRows, hc]
  have hf := fetch_history_ok env ts c h
  rw [he] at hf
  exact ⟨by simpa using hf, send_empty env ts _ rfl⟩

/-- C8 as stated is false on the code: a rejected login is caught by the
generic handler and retried — with every login failing, three login calls are
made (three whole-run attempts), not one terminal failure. -/
theorem auth_failure_is_retried_cex :
    (attempt (c8env 0) 0).2 =
      AttemptResult.retryExc (PyErr.runtimeError (loginFailMsg "login rejected")) ∧
    (main c8env).1.countP isLoginEv = 3 ∧
    (main c8env).1.getLast? = some (Event.printed exhaustedMsg) := by decide

/-- C8 amended: a rejected login raises `RuntimeError`, which aborts only the
current attempt like any other exception — the handler logs out, sleeps, and
the loop proceeds to the remaining retry indices; the pipeline becomes
terminally failed only when the budget is exhausted. -/
theorem auth_failure_retried (envs : Nat → AttemptEnv) (i : Nat) (rest : List Nat)
    (hl : (envs i).loginCode ≠ "0") :
    attempt (envs i) i =
      ([Event.login (envs i).loginCode, Event.printed (failAttemptMsg i),
        Event.logout (envs i).logoutCode, Event.sleep 5],
        AttemptResult.retryExc (PyErr.runtimeError (loginFailMsg (envs i).loginMsg))) ∧
    mainGo envs (i :: rest) =
      ((attempt (envs i) i).1 ++ (mainGo envs rest).1, (mainGo envs rest).2) := by
  have h1 := attempt_login_err (envs i) i hl
  exact ⟨h1, mainGo_cons_retry envs i rest (by rw [h1]; simp)⟩

/-- C9 as stated is false on the code: `raise_for_status()` raises only for
statuses in 400..599, so a 304 response — not an HTTP-success-class (2xx)
status — still makes the upload succeed. -/
theorem upload_304_succeeds_cex :
    (send_data_to_worker c9env "AAA" ⟨["date"], [["2020-01-02"]]⟩).2 = Except.ok () ∧
    ¬(200 ≤ 304 ∧ 304 < 300) := by decide

/-- C9 amended: for a non-empty payload the upload succeeds iff a response is
received whose status lies outside 400..599 (so 1xx/3xx responses also
succeed, not only 2xx); a 4xx/5xx status raises `HTTPError` carrying the
status and a transport-level failure re-raises the underlying cause; exactly
one POST is issued — no internal retry. -/
theorem upload_succeeds_iff_not_4xx5xx (env : AttemptEnv) (ts : String) (df : DataFrame)
    (hne : df.rows ≠ []) :
    ((send_data_to_worker env ts df).2 = Except.ok () ↔
      ∃ s b, env.uploadHttp ts = Except.ok (s, b) ∧ ¬(400 ≤ s ∧ s < 600)) ∧
    (∀ m, env.uploadHttp ts = Except.error m →
      (send_data_to_worker env ts df).2 = Except.error (PyErr.transportError m)) ∧
    (∀ s b, env.uploadHttp ts = Except.ok (s, b) → 400 ≤ s → s < 600 →
      (send_data_to_worker env ts df).2 = Except.error (PyErr.httpError s)) ∧
    (send_data_to_worker env ts df).1.countP isPostEv = 1 := by
  rcases hu : env.uploadHttp ts with m | ⟨s, b⟩
  · rw [send_transport_err env ts df m hne hu]
    refine ⟨?_, ?_, ?_, ?_⟩
    · constructor
      · intro hc
        simp at hc
      · rintro ⟨s, b, hsb, _⟩
        simp at hsb
    · intro m2 hm2
      simp at hm2
      simp [hm2]
    · intro s b hsb
      simp at hsb
    · simp [isPostEv]
  · by_cases hs : raiseForStatus s = true
    · rw [send_http_err env ts df s b hne hu hs]
      have hs4 : 400 ≤ s ∧ s < 600 := by simpa [raiseForStatus] using hs
      refine ⟨?_, ?_, ?_, ?_⟩
      · constructor
        · intro hc
          simp at hc
        · rintro ⟨s2, b2, hsb2, hnot⟩
          simp at hsb2
          exact absurd hs4 (by rw [hsb2.1]; exact hnot)
      · intro m hm
        simp at hm
      · intro s2 b2 hsb2 h4 h6
        simp at hsb2
        simp [hsb2.1]
      · simp [isPostEv]
    · have hs2 : raiseForStatus s = false := by simpa using hs
      rw [send_ok env ts df s b hne hu hs2]
      have hnot : ¬(400 ≤ s ∧ s < 600) := by simpa [raiseForStatus] using hs2
      refine ⟨?_, ?_, ?_, ?_⟩
      · constructor
        · intro _
          exact ⟨s, b, rfl, hnot⟩
        · intro _
          rfl
      · intro m hm
        simp at hm
      · intro s2 b2 hsb2 h4 h6
        simp at hsb2
        obtain ⟨h1, h2⟩ := hsb2
        subst h1
        exact absurd ⟨h4, h6⟩ hnot
      · simp [isPostEv]

/-! ### Witnesses: each hypothesis-bearing claim theorem applied at a
concrete environment -/

/-- Witness for C1 at a three-instrument environment whose second upload is
answered with HTTP 500. -/
theorem uploadError_aborts_attempt_and_restarts_witness :
    attempt (c1env 0) 0 =
      ([Event.login "0", Event.printed loginOkMsg, Event.printed listMsg, Event.queryAllStock,
        Event.printed (foundMsg ([["AAA"]] ++ ["BBB"] :: [["CCC"]]).length)] ++
        (([["AAA"]].flatMap fun r => (processOne (c1env 0) ["code"] r).1) ++
          (processOne (c1env 0) ["code"] ["BBB"]).1) ++
        [Event.printed (failAttemptMsg 0), Event.logout (c1env 0).logoutCode, Event.sleep 5],
        AttemptResult.retryExc (PyErr.httpError 500)) ∧
    mainGo c1env (0 :: [1, 2]) =
      ((attempt (c1env 0) 0).1 ++ (mainGo c1env [1, 2]).1, (mainGo c1env [1, 2]).2) ∧
    (∀ j rest2, [1, 2] = j :: rest2 →
      ((mainGo c1env [1, 2]).1).head? = some (Event.login (c1env j).loginCode)) ∧
    (∀ j rest2, [1, 2] = j :: rest2 → (c1env j).loginCode = "0" →
      ∃ t, (mainGo c1env [1, 2]).1 =
        [Event.login "0", Event.printed loginOkMsg, Event.printed listMsg,
          Event.queryAllStock] ++ t) :=
  uploadError_aborts_attempt_and_restarts c1env 0 [1, 2]
    ⟨"0", ["code"], [["AAA"], ["BBB"], ["CCC"]]⟩ [["AAA"]] ["BBB"] [["CCC"]]
    (PyErr.httpError 500) (by decide) (by decide) (by decide) (by decide) (by decide)
    (by decide)

/-- Witness for C2 at an environment whose every attempt fails. -/
theorem exhausted_retries_terminate_witness :
    MAX_RETRY = 3 ∧
    main c2env =
      (Event.printed startMsg ::
        ((attempt (c2env 0) 0).1 ++ ((attempt (c2env 1) 1).1 ++ ((attempt (c2env 2) 2).1 ++
          [Event.printed exhaustedMsg]))), Except.ok ()) :=
  exhausted_retries_terminate c2env (by decide)

/-- Witness for C3 at an environment whose single stock has no history rows. -/
theorem empty_history_skips_upload_witness :
    processOne c3env ["code"] ["AAA"] =
      ([Event.printed (fetchingMsg "AAA"), Event.queryHistory "AAA", Event.printed (gotMsg 0),
        Event.printed (skipMsg "AAA")], Except.ok ()) ∧
    processStocks c3env ["code"] (["AAA"] :: []) =
      ((processOne c3env ["code"] ["AAA"]).1 ++ (processStocks c3env ["code"] []).1,
        (processStocks c3env ["code"] []).2) :=
  empty_history_skips_upload c3env ["code"] ["AAA"] [] "AAA" ⟨"0", ["date", "close"], []⟩
    (by decide) (by decide) (by decide)

/-- Witness for C4 at an environment whose enumeration returns zero stocks. -/
theorem empty_enumeration_retries_witness :
    attempt (c4env 0) 0 =
      ([Event.login "0", Event.printed loginOkMsg, Event.printed listMsg, Event.queryAllStock,
        Event.printed (emptyListMsg 0), Event.logout (c4env 0).logoutCode, Event.sleep 5],
        AttemptResult.retryEmpty) ∧
    mainGo c4env (0 :: [1, 2]) =
      ((attempt (c4env 0) 0).1 ++ (mainGo c4env [1, 2]).1, (mainGo c4env [1, 2]).2) ∧
    (∀ j rest2, [1, 2] = j :: rest2 →
      ((mainGo c4env [1, 2]).1).head? = some (Event.login (c4env j).loginCode)) :=
  empty_enumeration_retries c4env 0 [1, 2] ⟨"0", ["code"], []⟩ (by decide) (by decide)
    (by decide)

/-- Witness for the amended C6 at the concrete error-code cursor. -/
theorem fetch_error_code_silent_empty_witness :
    fetch_history c6env "AAA" =
      ([Event.printed (fetchingMsg "AAA"), Event.queryHistory "AAA", Event.printed (gotMsg 0)],
        Except.ok ⟨["date", "close"], []⟩) ∧
    send_data_to_worker c6env "AAA" ⟨["date", "close"], []⟩ =
      ([Event.printed (skipMsg "AAA")], Except.ok ()) :=
  fetch_error_code_silent_empty c6env "AAA"
    ⟨"10001", ["date", "close"], [["2020-01-02", "1.23"]]⟩ (by decide) (by decide)

/-- Witness for C7 at an environment whose enumeration raises and whose logout
reports a failure code (which is ignored). -/
theorem exception_closes_sleeps_retries_witness :
    (∃ t, (attempt (c7env 0) 0).1 =
      t ++ [Event.printed (failAttemptMsg 0), Event.logout (c7env 0).logoutCode,
        Event.sleep 5]) ∧
    (∀ lc, (attempt (withLogout (c7env 0) lc) 0).2 =
      AttemptResult.retryExc (PyErr.other "connection reset")) ∧
    mainGo c7env (0 :: [1, 2]) =
      ((attempt (c7env 0) 0).1 ++ (mainGo c7env [1, 2]).1, (mainGo c7env [1, 2]).2) ∧
    (∀ j rest2, [1, 2] = j :: rest2 →
      ((mainGo c7env [1, 2]).1).head? = some (Event.login (c7env j).loginCode)) :=
  exception_closes_sleeps_retries c7env 0 [1, 2] (PyErr.other "connection reset") (by decide)

/-- Witness for the amended C8 at the all-logins-rejected environment. -/
theorem auth_failure_retried_witness :
    attempt (c8env 0) 0 =
      ([Event.login (c8env 0).loginCode, Event.printed (failAttemptMsg 0),
        Event.logout (c8env 0).logoutCode, Event.sleep 5],
        AttemptResult.retryExc (PyErr.runtimeError (loginFailMsg (c8env 0).loginMsg))) ∧
    mainGo c8env (0 :: [1, 2]) =
      ((attempt (c8env 0) 0).1 ++ (mainGo c8env [1, 2]).1, (mainGo c8env [1, 2]).2) :=
  auth_failure_retried c8env 0 [1, 2] (by decide)

/-- Witness for the amended C9 at a 200-response environment. -/
theorem upload_succeeds_iff_not_4xx5xx_witness :
    ((send_data_to_worker c9wenv "AAA" ⟨["date"], [["2020-01-02"]]⟩).2 = Except.ok () ↔
      ∃ s b, c9wenv.uploadHttp "AAA" = Except.ok (s, b) ∧ ¬(400 ≤ s ∧ s < 600)) ∧
    (∀ m, c9wenv.uploadHttp "AAA" = Except.error m →
      (send_data_to_worker c9wenv "AAA" ⟨["date"], [["2020-01-02"]]⟩).2 =
        Except.error (PyErr.transportError m)) ∧
    (∀ s b, c9wenv.uploadHttp "AAA" = Except.ok (s, b) → 400 ≤ s → s < 600 →
      (send_data_to_worker c9wenv "AAA" ⟨["date"], [["2020-01-02"]]⟩).2 =
        Except.error (PyErr.httpError s)) ∧
    (send_data_to_worker c9wenv "AAA" ⟨["date"], [["2020-01-02"]]⟩).1.countP isPostEv = 1 :=
  upload_succeeds_iff_not_4xx5xx c9wenv "AAA" ⟨["date"], [["2020-01-02"]]⟩ (by decide)

/-- Witness for C10 at an environment that exhausts all attempts. -/
theorem main_returns_ok_always_witness :
    (main c10env).2 = Except.ok () ∧
    ((main c10env).1).getLast? = some (Event.printed exhaustedMsg) :=
  ⟨(main_returns_ok_always c10env).1, (main_returns_ok_always c10env).2 (by decide)⟩

end UpdateAndSend
